import Mathlib

/-!
Verification development for the interactive_pool repository
(src/include/interactive_pool.h), a header-only resource pool with timing
metrics and latency detectors.  The C++ classes are shallowly embedded as
Lean structures and pure state-passing functions; machine clocks are
modelled by explicitly supplied readings, and the mutex has no sequential
content beyond serialising the operations modelled here.
-/

namespace InteractivePool

/-- Embedding of the struct interactive_pool_time (lines 24-30): timestamps and
the derived duration are modelled as natural numbers of milliseconds. -/
structure interactive_pool_time where
  init : Nat
  finish : Nat
  elapsed_time : Nat
  deriving DecidableEq

/-- Embedding of the pool state of the class template interactive_pool
(lines 38-152).  Pool items (std::unique_ptr handles) are modelled as
natural-number identifiers, held in the deque _freeItems. -/
structure interactive_pool where
  initialSize : Nat
  freeItems : List Nat
  deriving DecidableEq

/-- Constructor interactive_pool::interactive_pool (lines 47-52): records the
initial size and fills the free list with that many freshly constructed items. -/
def interactive_pool.construct (size : Nat) : interactive_pool :=
  { initialSize := size, freeItems := List.range size }

/-- get_available_count (lines 133-137): the size of the free list. -/
def interactive_pool.get_available_count (p : interactive_pool) : Nat :=
  p.freeItems.length

/-- set_item (lines 141-145): push_back of the returned handle onto the free list. -/
def interactive_pool.set_item (p : interactive_pool) (r : Nat) : interactive_pool :=
  { p with freeItems := p.freeItems ++ [r] }

/-- Message of the exception thrown by get_item on timeout (line 128). -/
def pool_exhausted_msg : String := "interactive_pool: All items are in use"

/-- Message of the exception thrown by check_before_destruct (line 64). -/
def leak_msg (initial current : Nat) : String :=
  "interactive_pool: Different count of items. Pool was created with ["
    ++ toString initial ++ "] but during destruction have [" ++ toString current ++ "]"

/-- check_before_destruct (lines 58-66): under the lock, compares the free-list
size with the initial size and throws the leak message if they differ.  The
function only reads the state, so the pool is returned unchanged. -/
def interactive_pool.check_before_destruct (p : interactive_pool) :
    Except String Unit × interactive_pool :=
  let current := p.freeItems.length
  if current ≠ p.initialSize then (Except.error (leak_msg p.initialSize current), p)
  else (Except.ok (), p)

/-- Outcome of one get_item call in the sequential model. -/
inductive AcquireResult where
  | gotItem (it : Nat)
  | exhausted (msg : String)
  | stillWaiting
  deriving DecidableEq

/-- Result record of a get_item call: the outcome, the pool state after the
call, the sample out-parameter after the call, and how many times the loop
checked the free list and executed the one-millisecond sleep. -/
structure GetItemOut where
  res : AcquireResult
  pool : interactive_pool
  sample : Option interactive_pool_time
  checks : Nat
  sleeps : Nat
  deriving DecidableEq

/-- Number of iterations of the do-while loop of get_item (lines 96-125) until
the condition elapsed < max_wait_ms at line 125 first fails, given the
successive elapsed readings computed at line 121; none when the recorded
readings end before the loop would exit. -/
def wait_iterations (max_wait_ms : Nat) : List Nat → Option Nat
  | [] => none
  | e :: rest =>
    if e < max_wait_ms then (wait_iterations max_wait_ms rest).map (· + 1) else some 1

/-- get_item (lines 84-129) in the sequential model: no other thread can refill
the free list during the call, so the first check of line 101 decides success.
The readings t_init and t_finish are the clock values used to stamp the sample
at lines 93 and 110, and elapsed_readings holds the successive values of
elapsed computed at line 121.  On the empty-list path every completed iteration
executes one one-millisecond sleep (line 123) before the loop condition is
tested, so the throw at line 128 is reached only after at least one sleep; the
outcome stillWaiting marks a recorded trace that ends before the loop exits. -/
def interactive_pool.get_item (p : interactive_pool) (max_wait_ms : Nat)
    (sample : Option interactive_pool_time) (t_init t_finish : Nat)
    (elapsed_readings : List Nat) : GetItemOut :=
  let s0 := sample.map fun s => { s with init := t_init }
  match p.freeItems with
  | it :: rest =>
      { res := AcquireResult.gotItem it
        pool := { p with freeItems := rest }
        sample := s0.map fun s => { s with finish := t_finish, elapsed_time := t_finish - s.init }
        checks := 1
        sleeps := 0 }
  | [] =>
      match wait_iterations max_wait_ms elapsed_readings with
      | some k =>
          { res := AcquireResult.exhausted pool_exhausted_msg
            pool := p, sample := s0, checks := k, sleeps := k }
      | none =>
          { res := AcquireResult.stillWaiting
            pool := p, sample := s0
            checks := elapsed_readings.length, sleeps := elapsed_readings.length }

/-- One client-visible operation on the pool: an acquire attempt through
get_item, or a release of the most recently acquired handle through set_item. -/
inductive PoolOp where
  | acquire
  | release

/-- One step of a client driving the pool.  The state is the pool together with
the list of currently checked-out handles.  An acquire that finds the free list
empty fails (get_item throws) and changes nothing; a release when the client
holds no handle is a no-op, since there is nothing to pass to set_item. -/
def stepOp (st : interactive_pool × List Nat) : PoolOp → interactive_pool × List Nat
  | PoolOp.acquire =>
      let g := st.1.get_item 0 none 0 0 [0]
      match g.res with
      | AcquireResult.gotItem it => (g.pool, it :: st.2)
      | _ => (g.pool, st.2)
  | PoolOp.release =>
      match st.2 with
      | it :: rest => (st.1.set_item it, rest)
      | [] => st

/-- Run a sequence of acquire and release operations from a freshly constructed
pool with no handle checked out. -/
def runOps (size : Nat) (ops : List PoolOp) : interactive_pool × List Nat :=
  ops.foldl stepOp (interactive_pool.construct size, [])

lemma stepOp_conserves (st : interactive_pool × List Nat) (op : PoolOp) :
    (stepOp st op).1.get_available_count + (stepOp st op).2.length
      = st.1.get_available_count + st.2.length := by
  cases op with
  | acquire =>
    cases hp : st.1.freeItems with
    | nil =>
      simp [stepOp, interactive_pool.get_item, hp, wait_iterations,
        interactive_pool.get_available_count]
    | cons it rest =>
      simp [stepOp, interactive_pool.get_item, hp,
        interactive_pool.get_available_count]
      omega
  | release =>
    cases hh : st.2 with
    | nil => simp [stepOp, hh]
    | cons it rest =>
      simp [stepOp, hh, interactive_pool.set_item,
        interactive_pool.get_available_count]
      omega

lemma foldl_stepOp_conserves (ops : List PoolOp) :
    ∀ st : interactive_pool × List Nat,
      (ops.foldl stepOp st).1.get_available_count + (ops.foldl stepOp st).2.length
        = st.1.get_available_count + st.2.length := by
  induction ops with
  | nil => intro st; simp
  | cons op rest ih =>
    intro st
    simp only [List.foldl_cons]
    rw [ih (stepOp st op), stepOp_conserves]

/-- C1: resource conservation.  Immediately after constructing a pool of any
size, get_available_count equals that size; and for every sequence of acquire
(get_item) and release (set_item) operations, at every quiescent point the
number of free items plus the number of currently checked-out handles equals
the initial size: no resource is created or lost by any operation. -/
theorem pool_conservation (size : Nat) (ops : List PoolOp) :
    (interactive_pool.construct size).get_available_count = size ∧
    (runOps size ops).1.get_available_count + (runOps size ops).2.length = size := by
  constructor
  · simp [interactive_pool.construct, interactive_pool.get_available_count]
  · rw [runOps, foldl_stepOp_conserves]
    simp [interactive_pool.construct, interactive_pool.get_available_count]

lemma get_item_nil (p : interactive_pool) (mw : Nat) (s : Option interactive_pool_time)
    (tI tF : Nat) (e : Nat) (rest : List Nat) (hp : p.freeItems = []) (he : ¬ e < mw) :
    p.get_item mw s tI tF (e :: rest) =
      { res := AcquireResult.exhausted pool_exhausted_msg
        pool := p, sample := s.map fun x => { x with init := tI }
        checks := 1, sleeps := 1 } := by
  simp [interactive_pool.get_item, hp, wait_iterations, he]

lemma get_item_cons (p : interactive_pool) (mw : Nat) (s : Option interactive_pool_time)
    (tI tF : Nat) (rs : List Nat) (it : Nat) (rest : List Nat)
    (hp : p.freeItems = it :: rest) :
    p.get_item mw s tI tF rs =
      { res := AcquireResult.gotItem it
        pool := { p with freeItems := rest }
        sample := s.map fun x => { x with init := tI, finish := tF, elapsed_time := tF - tI }
        checks := 1, sleeps := 0 } := by
  cases s <;> simp [interactive_pool.get_item, hp]

/-- C2 counterexample: on an empty pool with max_wait_ms zero, get_item does not
fail without sleeping: the do-while body executes the one-millisecond sleep of
line 123 once before the loop condition is tested and the exception is thrown,
so the number of sleeps performed is one, not zero. -/
theorem get_item_wait0_sleeps_once :
    ((interactive_pool.construct 0).get_item 0 none 0 0 [0]).res
        = AcquireResult.exhausted pool_exhausted_msg ∧
      ((interactive_pool.construct 0).get_item 0 none 0 0 [0]).sleeps ≠ 0 := by
  constructor
  · rfl
  · decide

/-- C2 (amended): for every call of get_item with max_wait_ms zero on a pool
whose free list is empty, the loop body runs exactly once: the free list is
checked exactly once, exactly one one-millisecond sleep is executed, and the
call fails with the runtime error interactive_pool: All items are in use,
leaving the free list unchanged. -/
theorem get_item_wait0_single_try (p : interactive_pool)
    (s : Option interactive_pool_time) (tI tF : Nat) (e : Nat) (rest : List Nat)
    (hp : p.freeItems = []) :
    ((p.get_item 0 s tI tF (e :: rest)).checks = 1 ∧
      (p.get_item 0 s tI tF (e :: rest)).sleeps = 1) ∧
    (p.get_item 0 s tI tF (e :: rest)).res = AcquireResult.exhausted pool_exhausted_msg ∧
    (p.get_item 0 s tI tF (e :: rest)).pool = p := by
  rw [get_item_nil p 0 s tI tF e rest hp (Nat.not_lt_zero e)]
  exact ⟨⟨rfl, rfl⟩, rfl, rfl⟩

/-- Witness for C2 at a concrete input: a pool constructed with size zero. -/
theorem get_item_wait0_single_try_witness :
    ((interactive_pool.construct 0).get_item 0 none 1 2 [0, 5]).checks = 1 ∧
      ((interactive_pool.construct 0).get_item 0 none 1 2 [0, 5]).res
        = AcquireResult.exhausted pool_exhausted_msg := by
  have h := get_item_wait0_single_try (interactive_pool.construct 0) none 1 2 0 [5] rfl
  exact ⟨h.1.1, h.2.1⟩

/-- C6: the pre-teardown diagnostic check succeeds iff the current free-list
size equals the initial capacity; otherwise it fails with the leak message that
reports both the expected count (the initial capacity) and the found count (the
current free-list size); and in both cases the pool state is unchanged. -/
theorem check_before_destruct_spec (p : interactive_pool) :
    ((p.check_before_destruct.1 = Except.ok ()) ↔ p.freeItems.length = p.initialSize) ∧
    (p.freeItems.length ≠ p.initialSize →
      p.check_before_destruct.1 = Except.error (leak_msg p.initialSize p.freeItems.length)) ∧
    p.check_before_destruct.2 = p := by
  by_cases h : p.freeItems.length = p.initialSize
  · refine ⟨⟨fun _ => h, fun _ => ?_⟩, fun hne => absurd h hne, ?_⟩
    · simp [interactive_pool.check_before_destruct, h]
    · simp [interactive_pool.check_before_destruct, h]
  · refine ⟨⟨fun hok => ?_, fun hh => absurd hh h⟩, fun _ => ?_, ?_⟩
    · rw [show p.check_before_destruct.1 = Except.error (leak_msg p.initialSize p.freeItems.length) by
        simp [interactive_pool.check_before_destruct, h]] at hok
      exact absurd hok (by simp)
    · simp [interactive_pool.check_before_destruct, h]
    · simp [interactive_pool.check_before_destruct, h]

/-- Witness for C6 at concrete inputs: a fresh pool of size two passes the
check, and a pool of initial size two holding one free item fails with the
message reporting expected two and found one. -/
theorem check_before_destruct_spec_witness :
    (interactive_pool.construct 2).check_before_destruct.1 = Except.ok () ∧
      (interactive_pool.check_before_destruct { initialSize := 2, freeItems := [0] }).1
        = Except.error (leak_msg 2 1) := by
  constructor
  · exact (check_before_destruct_spec (interactive_pool.construct 2)).1.mpr (by decide)
  · exact (check_before_destruct_spec { initialSize := 2, freeItems := [0] }).2.1 (by decide)

/-- C7: frame property of get_item on the sample out-parameter.  Whenever a
sample is supplied, its init field is stamped before the loop begins in all
cases; on a successful acquisition its finish and elapsed fields are stamped at
that moment; and on the empty-list (timeout) path the finish and elapsed
fields keep the values they had at entry. -/
theorem get_item_sample_frame (p : interactive_pool) (mw : Nat)
    (s : interactive_pool_time) (tI tF : Nat) (rs : List Nat) :
    (∀ s1, (p.get_item mw (some s) tI tF rs).sample = some s1 → s1.init = tI) ∧
    (∀ it rest, p.freeItems = it :: rest →
      (p.get_item mw (some s) tI tF rs).sample
        = some { init := tI, finish := tF, elapsed_time := tF - tI }) ∧
    (p.freeItems = [] →
      (p.get_item mw (some s) tI tF rs).sample
        = some { init := tI, finish := s.finish, elapsed_time := s.elapsed_time }) := by
  refine ⟨?_, ?_, ?_⟩
  · intro s1 h1
    cases hp : p.freeItems with
    | nil =>
      simp only [interactive_pool.get_item, hp] at h1
      cases hw : wait_iterations mw rs with
      | none => rw [hw] at h1; simp at h1; subst h1; rfl
      | some k => rw [hw] at h1; simp at h1; subst h1; rfl
    | cons it rest =>
      rw [get_item_cons p mw (some s) tI tF rs it rest hp] at h1
      simp at h1
      subst h1
      rfl
  · intro it rest hp
    rw [get_item_cons p mw (some s) tI tF rs it rest hp]
    simp
  · intro hp
    simp only [interactive_pool.get_item, hp]
    cases hw : wait_iterations mw rs <;> simp

/-- Witness for C7 at concrete inputs: an empty pool keeps the entry values of
finish and elapsed while stamping init, and a pool with one item stamps all
three fields. -/
theorem get_item_sample_frame_witness :
    ((interactive_pool.construct 0).get_item 5 (some ⟨9, 7, 3⟩) 2 6 [0, 99]).sample
        = some { init := 2, finish := 7, elapsed_time := 3 } ∧
      ((interactive_pool.construct 1).get_item 5 (some ⟨9, 7, 3⟩) 2 6 [0, 99]).sample
        = some { init := 2, finish := 6, elapsed_time := 4 } := by
  constructor
  · exact (get_item_sample_frame (interactive_pool.construct 0) 5 ⟨9, 7, 3⟩ 2 6 [0, 99]).2.2 rfl
  · exact (get_item_sample_frame (interactive_pool.construct 1) 5 ⟨9, 7, 3⟩ 2 6 [0, 99]).2.1 0 [] rfl

/-- Embedding of the class template interactive_average_detector
(lines 164-211): identifier, configured window size, the deque of latency
samples, and the trigger level.  The callback is not stored: each call reports
the argument triple it would have been invoked with, if any. -/
structure interactive_average_detector (α : Type) where
  id : α
  samples_count : Nat
  samples : List Nat
  trigger_level : Nat
  deriving DecidableEq

/-- Constructor (lines 169-172).  The member initialiser _samples(samples)
invokes the std::deque count constructor, so the window starts out holding
that many value-initialised (zero) elements rather than being empty. -/
def interactive_average_detector.construct (idv : α) (samples trigger_level : Nat) :
    interactive_average_detector α :=
  { id := idv, samples_count := samples, samples := List.replicate samples 0
    trigger_level := trigger_level }

/-- average (lines 199-203): zero on an empty window, otherwise the accumulated
sum divided by the window size, truncating.  std::accumulate is seeded with the
int literal 0, so with the mainstream 32-bit int the accumulation wraps modulo
2 to the 32 before the unsigned division. -/
def interactive_average_detector.average (d : interactive_average_detector α) : Nat :=
  if d.samples.isEmpty then 0 else (d.samples.sum % 2 ^ 32) / d.samples.length

/-- Common tail of set_elapsed_time (lines 183-195): push the received value
onto the kept part of the window; then, if the window size equals
samples_count, compute the average and report the callback arguments when it
exceeds the trigger level. -/
def interactive_average_detector.push_eval (d : interactive_average_detector α)
    (kept : List Nat) (i : Nat) :
    interactive_average_detector α × Option (α × Nat × Nat) :=
  let d1 : interactive_average_detector α := { d with samples := kept ++ [i] }
  (d1,
    if d1.samples.length = d1.samples_count then
      if d1.average > d1.trigger_level then some (d1.id, d1.trigger_level, d1.average)
      else none
    else none)

/-- set_elapsed_time (lines 175-196): when the window already holds at least
samples_count elements the oldest is removed first (pop_front at line 180).
Calling pop_front on an empty deque is undefined behaviour in C++ and is
modelled by none. -/
def interactive_average_detector.set_elapsed_time (d : interactive_average_detector α)
    (i : Nat) :
    Option (interactive_average_detector α × Option (α × Nat × Nat)) :=
  if d.samples.length ≥ d.samples_count then
    match d.samples with
    | [] => none
    | _ :: tl => some (d.push_eval tl i)
  else some (d.push_eval d.samples i)

/-- Feed a list of observations to an average detector in order, collecting the
per-call callback events; the result is none as soon as one call reaches the
undefined-behaviour branch. -/
def interactive_average_detector.run (d : interactive_average_detector α) :
    List Nat → Option (interactive_average_detector α × List (Option (α × Nat × Nat)))
  | [] => some (d, [])
  | i :: rest =>
    match d.set_elapsed_time i with
    | none => none
    | some de =>
      match interactive_average_detector.run de.1 rest with
      | none => none
      | some des => some (des.1, de.2 :: des.2)

/-- C3: the moving-average detector does not wait for window_size observed
samples before evaluating.  The constructor pre-fills the window with
window_size zero samples, so already the first call to set_elapsed_time evicts
a zero, refills the window, and may fire: with window_size 3 and trigger level
100, a first observation of 400 fires the callback with average 133, although
the claim states that no callback can occur before the third observed sample.
On the sequence of the claimed example the zeros keep the early averages below
the trigger, so the visible events happen to coincide with the claim. -/
theorem avg_detector_prefilled_window :
    interactive_average_detector.run (interactive_average_detector.construct (0 : Nat) 3 100)
        [400]
      = some ({ id := 0, samples_count := 3, samples := [0, 0, 400], trigger_level := 100 },
          [some (0, 100, 133)]) ∧
    interactive_average_detector.run (interactive_average_detector.construct (0 : Nat) 3 100)
        [50, 60, 200, 10]
      = some ({ id := 0, samples_count := 3, samples := [60, 200, 10], trigger_level := 100 },
          [none, none, some (0, 100, 103), none]) := by
  exact ⟨rfl, rfl⟩

lemma run_full_window {α : Type} (w : Nat) (hw : 1 ≤ w) :
    ∀ (xs : List Nat) (d : interactive_average_detector α),
      d.samples_count = w → d.samples.length = w →
      ∃ d1 evs, interactive_average_detector.run d xs = some (d1, evs) ∧
        d1.samples_count = w ∧ d1.samples.length = w := by
  intro xs
  induction xs with
  | nil => intro d h1 h2; exact ⟨d, [], rfl, h1, h2⟩
  | cons i rest ih =>
    intro d h1 h2
    have hge : d.samples.length ≥ d.samples_count := by omega
    cases hs : d.samples with
    | nil => rw [hs] at h2; simp at h2; omega
    | cons hd tl =>
      have hset : d.set_elapsed_time i = some (d.push_eval tl i) := by
        unfold interactive_average_detector.set_elapsed_time
        rw [if_pos hge, hs]
      have htl : tl.length + 1 = w := by rw [hs] at h2; simpa using h2
      have hlen : (d.push_eval tl i).1.samples.length = w := by
        simp [interactive_average_detector.push_eval]
        omega
      have hcnt : (d.push_eval tl i).1.samples_count = w := by
        simp [interactive_average_detector.push_eval, h1]
      obtain ⟨d2, evs, hrun, hc, hl⟩ := ih (d.push_eval tl i).1 hcnt hlen
      refine ⟨d2, (d.push_eval tl i).2 :: evs, ?_, hc, hl⟩
      simp [interactive_average_detector.run, hset, hrun]

/-- C10: for every average detector constructed with window_size at least one,
running any sequence of observations never reaches the undefined-behaviour
branch of the eviction (pop_front is only executed on a non-empty window) and
after every call the window holds at most window_size samples; while with
window_size zero, the very first call to set_elapsed_time evicts from an empty
window, which is the undefined-behaviour branch. -/
theorem avg_window_bounded {α : Type} (idv : α) (w t : Nat) (xs : List Nat) (hw : 1 ≤ w) :
    (∃ d1 evs,
      interactive_average_detector.run (interactive_average_detector.construct idv w t) xs
        = some (d1, evs) ∧ d1.samples.length ≤ w) ∧
    ∀ x : Nat,
      interactive_average_detector.set_elapsed_time
        (interactive_average_detector.construct idv 0 t) x = none := by
  constructor
  · obtain ⟨d1, evs, h, _, hl⟩ :=
      run_full_window w hw xs (interactive_average_detector.construct idv w t)
        rfl (by simp [interactive_average_detector.construct])
    exact ⟨d1, evs, h, le_of_eq hl⟩
  · intro x
    simp [interactive_average_detector.construct,
      interactive_average_detector.set_elapsed_time]

/-- Witness for C10 at concrete inputs: window size one with one observation,
and the undefined-behaviour branch at window size zero. -/
theorem avg_window_bounded_witness :
    (∃ d1 evs,
      interactive_average_detector.run (interactive_average_detector.construct (0 : Nat) 1 0) [5]
        = some (d1, evs) ∧ d1.samples.length ≤ 1) ∧
    interactive_average_detector.set_elapsed_time
      (interactive_average_detector.construct (0 : Nat) 0 0) 5 = none := by
  have h := avg_window_bounded (0 : Nat) 1 0 [5] (by decide)
  exact ⟨h.1, h.2 5⟩

/-- Embedding of the class template interactive_peak_detector (lines 218-251):
identifier and trigger level; the detector keeps no other state. -/
structure interactive_peak_detector (α : Type) where
  id : α
  trigger_level : Nat
  deriving DecidableEq

/-- Constructor (lines 232-236). -/
def interactive_peak_detector.construct (idv : α) (trigger_level : Nat) :
    interactive_peak_detector α :=
  { id := idv, trigger_level := trigger_level }

/-- set_elapsed_time (lines 240-246): report the callback arguments exactly
when the observed value strictly exceeds the trigger level. -/
def interactive_peak_detector.set_elapsed_time (d : interactive_peak_detector α)
    (i : Nat) : Option (α × Nat × Nat) :=
  if i > d.trigger_level then some (d.id, d.trigger_level, i) else none

/-- Feed a list of observations to a peak detector in order; the detector is
stateless, so this is a plain map. -/
def interactive_peak_detector.run (d : interactive_peak_detector α) (xs : List Nat) :
    List (Option (α × Nat × Nat)) :=
  xs.map d.set_elapsed_time

/-- C4: the peak detector invokes the callback iff the observed value strictly
exceeds the trigger level, with arguments exactly (id, trigger_level, value),
on every such call, independently of any previous observations: the response
to an observation is the same after any history. -/
theorem peak_detector_fires_iff {α : Type} (d : interactive_peak_detector α)
    (v : Nat) (xs : List Nat) :
    ((d.set_elapsed_time v).isSome ↔ v > d.trigger_level) ∧
    (v > d.trigger_level → d.set_elapsed_time v = some (d.id, d.trigger_level, v)) ∧
    (¬ v > d.trigger_level → d.set_elapsed_time v = none) ∧
    d.run (xs ++ [v]) = d.run xs ++ [d.set_elapsed_time v] := by
  refine ⟨?_, ?_, ?_, ?_⟩
  · by_cases h : v > d.trigger_level <;>
      simp [interactive_peak_detector.set_elapsed_time, h]
  · intro h; simp [interactive_peak_detector.set_elapsed_time, h]
  · intro h; simp [interactive_peak_detector.set_elapsed_time, h]
  · simp [interactive_peak_detector.run]

/-- Witness for C4 at the concrete inputs of the spec example: trigger level
1300, observation 1500 fires with (id, 1300, 1500), observation 1000 does not. -/
theorem peak_detector_fires_iff_witness :
    interactive_peak_detector.set_elapsed_time
        (interactive_peak_detector.construct (0 : Nat) 1300) 1500 = some (0, 1300, 1500) ∧
    interactive_peak_detector.set_elapsed_time
        (interactive_peak_detector.construct (0 : Nat) 1300) 1000 = none := by
  have h1 := peak_detector_fires_iff (interactive_peak_detector.construct (0 : Nat) 1300) 1500 []
  have h2 := peak_detector_fires_iff (interactive_peak_detector.construct (0 : Nat) 1300) 1000 []
  exact ⟨h1.2.1 (by decide), h2.2.2.1 (by decide)⟩

/-- Embedding of the class template interactive_pool_scoped_connection
(lines 259-296).  Only the held handle is state here: the _pool member is the
constructing pool, threaded explicitly through this sequential embedding and
always non-null, and the detector member is represented by the list of values
it was called with. -/
structure interactive_pool_scoped_connection where
  _p : Option Nat
  deriving DecidableEq

/-- Default value of the max_wait_ms argument of get_item (line 84):
numeric_limits of uint32_t max. -/
def get_item_default_max_wait_ms : Nat := 2 ^ 32 - 1

/-- Default value of the max_wait_ms argument of the scoped-connection
constructor (line 264). -/
def scoped_connection_default_max_wait_ms : Nat := 0

/-- Result record of a scoped-connection construction: the constructed guard or
the propagated acquisition error, the pool state after the call, the sample
out-parameter after the call, and the values the detector was called with. -/
structure CtorOut where
  result : Except String interactive_pool_scoped_connection
  pool : interactive_pool
  sample : Option interactive_pool_time
  detector_calls : List Nat

/-- Constructor (lines 262-274): calls get_item with the given max_wait_ms and
sample pointer; an acquisition failure propagates unchanged.  On success, if
both a detector and a sample were supplied, the detector receives the elapsed
milliseconds just stamped into the sample, exactly once.  The outcome is none
only for the stillWaiting artefact of a too-short recorded clock trace. -/
def interactive_pool_scoped_connection.construct (pool : interactive_pool)
    (max_wait_ms : Nat) (time_elapsed_ms : Option interactive_pool_time)
    (has_detector : Bool) (t_init t_finish : Nat) (elapsed_readings : List Nat) :
    Option CtorOut :=
  let g := pool.get_item max_wait_ms time_elapsed_ms t_init t_finish elapsed_readings
  match g.res with
  | AcquireResult.gotItem it =>
      some { result := Except.ok { _p := some it }
             pool := g.pool
             sample := g.sample
             detector_calls :=
               if has_detector then
                 match g.sample with
                 | some s1 => [s1.elapsed_time]
                 | none => []
               else [] }
  | AcquireResult.exhausted msg =>
      some { result := Except.error msg, pool := g.pool, sample := g.sample
             detector_calls := [] }
  | AcquireResult.stillWaiting => none

/-- Destructor (lines 283-289): if a handle is held (and the pool reference,
always non-null here, is set), return it to the pool through set_item. -/
def interactive_pool_scoped_connection.destruct (g : interactive_pool_scoped_connection)
    (pool : interactive_pool) : interactive_pool :=
  match g._p with
  | some it => pool.set_item it
  | none => pool

/-- C5: guard round-trip.  Whenever a scoped-connection construction succeeds,
destroying the guard returns the held handle to the originating pool, so that
after destruction get_available_count equals its value immediately before the
construction. -/
theorem guard_roundtrip (p : interactive_pool) (mw : Nat)
    (s : Option interactive_pool_time) (det : Bool) (tI tF : Nat) (rs : List Nat)
    (out : CtorOut) (g : interactive_pool_scoped_connection)
    (hctor : interactive_pool_scoped_connection.construct p mw s det tI tF rs = some out)
    (hok : out.result = Except.ok g) :
    (g.destruct out.pool).get_available_count = p.get_available_count := by
  cases hp : p.freeItems with
  | nil =>
    exfalso
    simp only [interactive_pool_scoped_connection.construct,
      interactive_pool.get_item, hp] at hctor
    cases hw : wait_iterations mw rs with
    | none => rw [hw] at hctor; simp at hctor
    | some k =>
      rw [hw] at hctor
      simp at hctor
      rw [← hctor] at hok
      simp at hok
  | cons it rest =>
    have hg := get_item_cons p mw s tI tF rs it rest hp
    simp only [interactive_pool_scoped_connection.construct, hg] at hctor
    simp at hctor
    rw [← hctor] at hok
    simp at hok
    rw [← hctor, ← hok]
    simp [interactive_pool_scoped_connection.destruct, interactive_pool.set_item,
      interactive_pool.get_available_count, hp]

/-- Witness for C5 at a concrete input: a pool of size one, guard constructed
with the default arguments, then destroyed. -/
theorem guard_roundtrip_witness :
    (interactive_pool_scoped_connection.destruct { _p := some 0 }
        { initialSize := 1, freeItems := [] }).get_available_count
      = (interactive_pool.construct 1).get_available_count := by
  exact guard_roundtrip (interactive_pool.construct 1) 0 none false 0 0 [0]
    { result := Except.ok { _p := some 0 }, pool := { initialSize := 1, freeItems := [] }
      sample := none, detector_calls := [] }
    { _p := some 0 } rfl rfl

/-- C8: on a successful acquisition the guard construction calls the detector
exactly once with the freshly stamped elapsed milliseconds of the sample iff
both a sample and a detector were supplied, and makes no detector call
otherwise; on an acquisition failure the construction fails with the same
propagated error, yields no guard, and makes no detector call. -/
theorem guard_ctor_detector_calls (p : interactive_pool) (mw : Nat)
    (s : Option interactive_pool_time) (det : Bool) (tI tF : Nat) (rs : List Nat) :
    (∀ it rest, p.freeItems = it :: rest →
      ∃ out, interactive_pool_scoped_connection.construct p mw s det tI tF rs = some out ∧
        out.result = Except.ok { _p := some it } ∧
        (det = true → ∀ s0, s = some s0 →
          ∃ s1, out.sample = some s1 ∧ out.detector_calls = [s1.elapsed_time]) ∧
        ((det = false ∨ s = none) → out.detector_calls = [])) ∧
    (∀ m, (p.get_item mw s tI tF rs).res = AcquireResult.exhausted m →
      interactive_pool_scoped_connection.construct p mw s det tI tF rs
        = some { result := Except.error m, pool := p
                 sample := s.map fun x => { x with init := tI }
                 detector_calls := [] }) := by
  constructor
  · intro it rest hp
    have hg := get_item_cons p mw s tI tF rs it rest hp
    have hc : interactive_pool_scoped_connection.construct p mw s det tI tF rs
        = some { result := Except.ok { _p := some it }
                 pool := { p with freeItems := rest }
                 sample := s.map fun x =>
                   { x with init := tI, finish := tF, elapsed_time := tF - tI }
                 detector_calls :=
                   if det then
                     match s.map (fun x =>
                       ({ x with init := tI, finish := tF, elapsed_time := tF - tI }
                         : interactive_pool_time)) with
                     | some s1 => [s1.elapsed_time]
                     | none => []
                   else [] } := by
      rw [interactive_pool_scoped_connection.construct, hg]
    refine ⟨_, hc, rfl, ?_, ?_⟩
    · rintro rfl s0 rfl
      exact ⟨_, rfl, rfl⟩
    · rintro (rfl | rfl)
      · rfl
      · cases det <;> rfl
  · intro m hm
    cases hp : p.freeItems with
    | cons it rest =>
      rw [get_item_cons p mw s tI tF rs it rest hp] at hm
      simp at hm
    | nil =>
      simp only [interactive_pool.get_item, hp] at hm
      cases hw : wait_iterations mw rs with
      | none => rw [hw] at hm; simp at hm
      | some k =>
        rw [hw] at hm
        simp at hm
        subst hm
        simp only [interactive_pool_scoped_connection.construct,
          interactive_pool.get_item, hp, hw]

/-- Witness for C8 at concrete inputs: a pool of size one with a sample and a
detector calls the detector once with the stamped elapsed time, and an empty
pool propagates the exhaustion error with no detector call. -/
theorem guard_ctor_detector_calls_witness :
    (∃ out, interactive_pool_scoped_connection.construct (interactive_pool.construct 1) 0
        (some { init := 9, finish := 9, elapsed_time := 9 }) true 2 6 [0] = some out ∧
      out.result = Except.ok { _p := some 0 } ∧
      ∃ s1, out.sample = some s1 ∧ out.detector_calls = [s1.elapsed_time]) ∧
    interactive_pool_scoped_connection.construct (interactive_pool.construct 0) 0
        (some { init := 9, finish := 9, elapsed_time := 9 }) true 2 6 [0]
      = some { result := Except.error pool_exhausted_msg
               pool := interactive_pool.construct 0
               sample := some { init := 2, finish := 9, elapsed_time := 9 }
               detector_calls := [] } := by
  constructor
  · obtain ⟨out, h1, h2, h3, _⟩ :=
      (guard_ctor_detector_calls (interactive_pool.construct 1) 0
        (some { init := 9, finish := 9, elapsed_time := 9 }) true 2 6 [0]).1 0 [] rfl
    exact ⟨out, h1, h2, h3 rfl { init := 9, finish := 9, elapsed_time := 9 } rfl⟩
  · exact (guard_ctor_detector_calls (interactive_pool.construct 0) 0
      (some { init := 9, finish := 9, elapsed_time := 9 }) true 2 6 [0]).2
      pool_exhausted_msg rfl

/-- C9: the scoped-connection constructor defaults max_wait_ms to zero (try
exactly once), unlike get_item whose own default is the maximum uint32_t
value, so constructing a guard with the default on a pool with an empty free
list fails at once with the pool-exhausted error. -/
theorem guard_default_wait (p : interactive_pool) (s : Option interactive_pool_time)
    (det : Bool) (tI tF : Nat) (e : Nat) (rest : List Nat) (hp : p.freeItems = []) :
    scoped_connection_default_max_wait_ms = 0 ∧
    get_item_default_max_wait_ms = 4294967295 ∧
    interactive_pool_scoped_connection.construct p scoped_connection_default_max_wait_ms
        s det tI tF (e :: rest)
      = some { result := Except.error pool_exhausted_msg, pool := p
               sample := s.map fun x => { x with init := tI }
               detector_calls := [] } := by
  refine ⟨rfl, by decide, ?_⟩
  have hg := get_item_nil p 0 s tI tF e rest hp (Nat.not_lt_zero e)
  rw [interactive_pool_scoped_connection.construct, scoped_connection_default_max_wait_ms, hg]

/-- Witness for C9 at a concrete input: a pool constructed with size zero. -/
theorem guard_default_wait_witness :
    interactive_pool_scoped_connection.construct (interactive_pool.construct 0)
        scoped_connection_default_max_wait_ms none false 1 2 [0, 7]
      = some { result := Except.error pool_exhausted_msg
               pool := interactive_pool.construct 0
               sample := none, detector_calls := [] } := by
  exact (guard_default_wait (interactive_pool.construct 0) none false 1 2 0 [7] rfl).2.2

end InteractivePool
